import Mathlib

/-!
Verification of the Dropbox-Viz web server (`oauth.py`).

The program is a small Bottle application: five GET routes, a process-wide
mutable `client` slot, an in-memory `session` dict, and an `after_request`
hook that adds three CORS headers to every response.  The Dropbox SDK
(`DropboxOAuth2Flow.start`, `DropboxOAuth2Flow.finish`,
`DropboxClient.account_info`, `DropboxClient.metadata`) is consumed as an
opaque capability: we model it as a record of functions (`SDK`) that each
handler calls, so the theorems hold for every SDK behaviour.

Python semantics embedded here:
  - an unhandled exception in a handler (failed token exchange, attribute
    access on `None`) is turned by Bottle into a 500 response;
  - `bottle.redirect(url)` produces a 303 response with a `Location` header;
  - a handler returning `None` produces an empty 200 body;
  - the `after_request` hook runs on every response and sets the three
    CORS headers.
-/

deriving instance DecidableEq for Except

namespace DropboxViz

/-- Account-info object returned by the Dropbox SDK; its JSON shape is
provider-defined, so it is kept opaque. -/
structure AccountInfo where
  info : String
deriving Repr, DecidableEq

/-- The triple returned by `DropboxOAuth2Flow.finish`:
`access_token, user_id, url_state`. -/
structure OAuthResult where
  accessToken : String
  userId : String
  urlState : String
deriving Repr, DecidableEq

/-- An exception raised by `DropboxOAuth2Flow.finish` (state mismatch,
expired or invalid code, ...); opaque message. -/
structure ExchangeError where
  msg : String
deriving Repr, DecidableEq

/-- `dropbox.client.DropboxClient`: wraps an access token. -/
structure DropboxClient where
  accessToken : String
deriving Repr, DecidableEq

/-- The in-memory session mapping (`session = {}` in oauth.py); a
string-keyed dict mutated only by the SDK flow object. -/
abbrev Session := List (String × String)

/-- Query string of a request; the handlers only ever read `state` and
`code` (and pass the whole query to `finish`). -/
structure Query where
  state : String
  code : String
deriving Repr, DecidableEq

/-- `app_key = '9ero453euch91e0'` -/
def app_key : String := "9ero453euch91e0"

/-- `app_secret = '621050byozk9lgd'` -/
def app_secret : String := "621050byozk9lgd"

/-- `dropbox_redirect_uri = "http://localhost:8080/redirect_uri"` -/
def dropbox_redirect_uri : String := "http://localhost:8080/redirect_uri"

/-- The flow object built by `get_auth_flow()`:
`DropboxOAuth2Flow(app_key, app_secret, dropbox_redirect_uri, session,
'dropbox-auth-csrf-token')`.  It holds no state beyond its constructor
arguments. -/
structure DropboxOAuth2Flow where
  consumerKey : String
  consumerSecret : String
  redirectUri : String
  session : Session
  csrfTokenSessionKey : String
deriving Repr, DecidableEq

/-- The Dropbox SDK as an opaque capability boundary: `start` returns the
authorization URL and the updated session; `finish` returns either the
exchange result or an exception, together with the updated session;
`accountInfo` and `metadata` are the storage calls of a client holding a
given access token. -/
structure SDK where
  start : DropboxOAuth2Flow → String × Session
  finish : DropboxOAuth2Flow → Query → Except ExchangeError OAuthResult × Session
  accountInfo : String → AccountInfo
  metadata : String → String → String

/-- `client.account_info()` -/
def DropboxClient.account_info (sdk : SDK) (c : DropboxClient) : AccountInfo :=
  sdk.accountInfo c.accessToken

/-- `client.metadata(path)` -/
def DropboxClient.get_metadata_at (sdk : SDK) (c : DropboxClient) (path : String) : String :=
  sdk.metadata c.accessToken path

/-- The mutable process-wide state: the `session` dict and the `client`
slot (`client = None` initially). -/
structure ServerState where
  session : Session
  client : Option DropboxClient
deriving Repr, DecidableEq

/-- The state at process start: `session = {}`, `client = None`. -/
def initState : ServerState := ⟨[], none⟩

/-- `get_auth_flow()`: builds a fresh flow from the static credentials and
the current session. -/
def get_auth_flow (st : ServerState) : DropboxOAuth2Flow :=
  ⟨app_key, app_secret, dropbox_redirect_uri, st.session, "dropbox-auth-csrf-token"⟩

/-- A Python exception escaping a handler. -/
inductive PyError where
  /-- attribute access on `None` (`client.metadata` / `client.account_info`
  with `client = None`) -/
  | noneTypeAttribute : PyError
  /-- an exception propagating out of `DropboxOAuth2Flow.finish` -/
  | uncaught (e : ExchangeError) : PyError
deriving Repr, DecidableEq

/-- A response body as produced by a handler. -/
inductive Body where
  /-- an account-info dict, serialized by Bottle -/
  | account (a : AccountInfo) : Body
  /-- a metadata dict / plain payload -/
  | raw (s : String) : Body
  /-- empty body (handler returned `None`) -/
  | empty : Body
deriving Repr, DecidableEq

/-- How a handler ends: a normal return value, a `redirect(...)`, or an
unhandled exception. -/
inductive HandlerResult where
  | ret (b : Body) : HandlerResult
  | redirectTo (url : String) : HandlerResult
  | raised (e : PyError) : HandlerResult
deriving Repr, DecidableEq

/-- `dropbox_auth_start()`: `new_url = get_auth_flow().start();
return redirect(new_url)`. -/
def dropbox_auth_start (sdk : SDK) (st : ServerState) : HandlerResult × ServerState :=
  let started := sdk.start (get_auth_flow st)
  (.redirectTo started.1, { st with session := started.2 })

/-- `redirect_uri()`: completes the exchange; on success constructs the
client from the access token, stores it in the global slot and returns
`client.account_info()`; a failing exchange raises. -/
def redirect_uri (sdk : SDK) (q : Query) (st : ServerState) : HandlerResult × ServerState :=
  let finished := sdk.finish (get_auth_flow st) q
  match finished.1 with
  | .error e => (.raised (.uncaught e), { st with session := finished.2 })
  | .ok res =>
      let c : DropboxClient := ⟨res.accessToken⟩
      (.ret (Body.account (c.account_info sdk)),
        { st with session := finished.2, client := some c })

/-- `finish_auth()`: performs the exchange, binds
`access_token, user_id, url_state`, and returns `None`. -/
def finish_auth (sdk : SDK) (q : Query) (st : ServerState) : HandlerResult × ServerState :=
  let finished := sdk.finish (get_auth_flow st) q
  match finished.1 with
  | .error e => (.raised (.uncaught e), { st with session := finished.2 })
  | .ok _ => (.ret Body.empty, { st with session := finished.2 })

/-- `get_metadata(folder_path)`: `path = '/' + folder_path;
return client.metadata(path)`; raises on `client = None`. -/
def get_metadata (sdk : SDK) (folder_path : String) (st : ServerState) :
    HandlerResult × ServerState :=
  let path := "/" ++ folder_path
  match st.client with
  | none => (.raised .noneTypeAttribute, st)
  | some c => (.ret (Body.raw (c.get_metadata_at sdk path)), st)

/-- `initial_corordinates()` (route `/test`): `return client.account_info()`;
raises on `client = None`. -/
def initial_corordinates (sdk : SDK) (st : ServerState) : HandlerResult × ServerState :=
  match st.client with
  | none => (.raised .noneTypeAttribute, st)
  | some c => (.ret (Body.account (c.account_info sdk)), st)

/-- An incoming HTTP request to one of the five routes. -/
inductive Request where
  | authStart : Request
  | redirectUri (q : Query) : Request
  | authFinish (q : Query) : Request
  | metadata (folder_path : String) : Request
  | test : Request
deriving Repr, DecidableEq

/-- Route dispatch (`@route(...)` registrations). -/
def handle (sdk : SDK) (req : Request) (st : ServerState) : HandlerResult × ServerState :=
  match req with
  | .authStart => dropbox_auth_start sdk st
  | .redirectUri q => redirect_uri sdk q st
  | .authFinish q => finish_auth sdk q st
  | .metadata fp => get_metadata sdk fp st
  | .test => initial_corordinates sdk st

/-- An HTTP response: status, headers, body. -/
structure Response where
  status : Nat
  headers : List (String × String)
  body : Body
deriving Repr, DecidableEq

/-- `response.headers[k] = v`: replace an existing header, else append. -/
def setHeader (hs : List (String × String)) (k v : String) : List (String × String) :=
  match hs with
  | [] => [(k, v)]
  | (k', v') :: rest => if k' = k then (k, v) :: rest else (k', v') :: setHeader rest k v

/-- First value bound to a header name, if any. -/
def getHeader (hs : List (String × String)) (k : String) : Option String :=
  match hs with
  | [] => none
  | (k', v) :: rest => if k' = k then some v else getHeader rest k

/-- Header lookup on a response. -/
def Response.getHeader (r : Response) (k : String) : Option String :=
  DropboxViz.getHeader r.headers k

/-- Bottle turning a handler outcome into an HTTP response: a returned
value becomes a 200, `redirect(url)` a 303 with a `Location` header, and an
unhandled exception a 500 "Internal Server Error". -/
def toResponse (r : HandlerResult) : Response :=
  match r with
  | .ret b => ⟨200, [], b⟩
  | .redirectTo url => ⟨303, [("Location", url)], Body.empty⟩
  | .raised _ => ⟨500, [], Body.raw "Internal Server Error"⟩

/-- `enable_cors()`: the `after_request` hook; sets the three CORS headers
on the response. -/
def enable_cors (r : Response) : Response :=
  let hs1 := setHeader r.headers "Access-Control-Allow-Origin" "*"
  let hs2 := setHeader hs1 "Access-Control-Allow-Methods" "PUT, GET, POST, DELETE, OPTIONS"
  let hs3 := setHeader hs2 "Access-Control-Allow-Headers"
    "Origin, Accept, Content-Type, X-Requested-With, X-CSRF-Token"
  { r with headers := hs3 }

/-- One full request/response cycle: dispatch, response construction, CORS
hook. -/
def serve (sdk : SDK) (req : Request) (st : ServerState) : Response × ServerState :=
  (enable_cors (toResponse (handle sdk req st).1), (handle sdk req st).2)

/-- Serve a sequence of requests, collecting the responses. -/
def serveMany (sdk : SDK) (reqs : List Request) (st : ServerState) :
    List Response × ServerState :=
  match reqs with
  | [] => ([], st)
  | r :: rs =>
      ((serve sdk r st).1 :: (serveMany sdk rs (serve sdk r st).2).1,
        (serveMany sdk rs (serve sdk r st).2).2)

/-- Final state after serving a sequence of requests. -/
def runTrace (sdk : SDK) (st : ServerState) : List Request → ServerState
  | [] => st
  | r :: rs => runTrace sdk (handle sdk r st).2 rs

/-- Whether, in state `st`, this request is a `/redirect_uri` call whose
token exchange succeeds. -/
def succeedsAsRedirect (sdk : SDK) (st : ServerState) : Request → Bool
  | .redirectUri q =>
      match (sdk.finish (get_auth_flow st) q).1 with
      | .ok _ => true
      | .error _ => false
  | _ => false

/-- Whether no request of the trace, served in order from `st`, is a
successful `/redirect_uri` call. -/
def noSuccessfulRedirect (sdk : SDK) (st : ServerState) : List Request → Bool
  | [] => true
  | r :: rs =>
      !succeedsAsRedirect sdk st r && noSuccessfulRedirect sdk (handle sdk r st).2 rs

/-- Default used for out-of-range response indexing. -/
def defaultResponse : Response := ⟨0, [], Body.empty⟩

/-- A concrete SDK used to instantiate the theorems: the exchange succeeds
exactly when the query carries a non-empty `code`, always yielding access
token `"AT"`. -/
def demoSDK : SDK where
  start := fun f => ("https://www.dropbox.com/oauth2/authorize", ("dropbox-auth-csrf-token", "csrf") :: f.session)
  finish := fun f q =>
    if q.code = "" then (.error ⟨"bad request"⟩, f.session)
    else (.ok ⟨"AT", "user-" ++ q.code, q.state⟩, f.session)
  accountInfo := fun t => ⟨"account of " ++ t⟩
  metadata := fun t p => "meta " ++ t ++ " at " ++ p

/-! ### Header bookkeeping lemmas -/

theorem getHeader_setHeader_same (hs : List (String × String)) (k v : String) :
    getHeader (setHeader hs k v) k = some v := by
  induction hs with
  | nil => simp [setHeader, getHeader]
  | cons p rest ih =>
      obtain ⟨k', v'⟩ := p
      by_cases h : k' = k <;> simp [setHeader, getHeader, h, ih]

theorem getHeader_setHeader_other (hs : List (String × String)) (k k' v : String)
    (h : k' ≠ k) : getHeader (setHeader hs k' v) k = getHeader hs k := by
  induction hs with
  | nil => simp [setHeader, getHeader, h]
  | cons p rest ih =>
      obtain ⟨k0, v0⟩ := p
      by_cases h0 : k0 = k' <;> simp [setHeader, getHeader, h0, h, ih]

theorem enable_cors_status (r : Response) : (enable_cors r).status = r.status := rfl

theorem enable_cors_body (r : Response) : (enable_cors r).body = r.body := rfl

theorem enable_cors_origin (r : Response) :
    (enable_cors r).getHeader "Access-Control-Allow-Origin" = some "*" := by
  show getHeader _ _ = _
  unfold enable_cors
  rw [getHeader_setHeader_other _ _ _ _ (by decide),
    getHeader_setHeader_other _ _ _ _ (by decide), getHeader_setHeader_same]

theorem enable_cors_methods (r : Response) :
    (enable_cors r).getHeader "Access-Control-Allow-Methods" =
      some "PUT, GET, POST, DELETE, OPTIONS" := by
  show getHeader _ _ = _
  unfold enable_cors
  rw [getHeader_setHeader_other _ _ _ _ (by decide), getHeader_setHeader_same]

theorem enable_cors_allowed (r : Response) :
    (enable_cors r).getHeader "Access-Control-Allow-Headers" =
      some "Origin, Accept, Content-Type, X-Requested-With, X-CSRF-Token" := by
  show getHeader _ _ = _
  unfold enable_cors
  rw [getHeader_setHeader_same]

theorem enable_cors_location (r : Response) :
    (enable_cors r).getHeader "Location" = r.getHeader "Location" := by
  show getHeader _ _ = _
  unfold enable_cors
  rw [getHeader_setHeader_other _ _ _ _ (by decide),
    getHeader_setHeader_other _ _ _ _ (by decide),
    getHeader_setHeader_other _ _ _ _ (by decide)]
  rfl

/-! ### Client-slot step lemmas -/

theorem serve_snd (sdk : SDK) (req : Request) (st : ServerState) :
    (serve sdk req st).2 = (handle sdk req st).2 := rfl

theorem handle_client_of_not_redirect (sdk : SDK) (req : Request) (st : ServerState)
    (h : succeedsAsRedirect sdk st req = false) :
    (handle sdk req st).2.client = st.client := by
  cases req with
  | authStart => rfl
  | redirectUri q =>
      cases hf : (sdk.finish (get_auth_flow st) q).1 with
      | error e => simp [handle, redirect_uri, hf]
      | ok r => simp [succeedsAsRedirect, hf] at h
  | authFinish q =>
      cases hf : (sdk.finish (get_auth_flow st) q).1 <;> simp [handle, finish_auth, hf]
  | metadata fp => cases hc : st.client <;> simp [handle, get_metadata, hc]
  | test => cases hc : st.client <;> simp [handle, initial_corordinates, hc]

theorem handle_client_ne_none (sdk : SDK) (req : Request) (st : ServerState)
    (h : st.client ≠ none) : (handle sdk req st).2.client ≠ none := by
  cases req with
  | authStart => exact h
  | redirectUri q =>
      cases hf : (sdk.finish (get_auth_flow st) q).1 with
      | error e => simpa [handle, redirect_uri, hf] using h
      | ok r => simp [handle, redirect_uri, hf]
  | authFinish q =>
      cases hf : (sdk.finish (get_auth_flow st) q).1 <;>
        simpa [handle, finish_auth, hf] using h
  | metadata fp =>
      cases hc : st.client with
      | none => exact absurd hc h
      | some c => simp [handle, get_metadata, hc]
  | test =>
      cases hc : st.client with
      | none => exact absurd hc h
      | some c => simp [handle, initial_corordinates, hc]

theorem handle_client_step (sdk : SDK) (req : Request) (st : ServerState) :
    (handle sdk req st).2.client = st.client ∨
      ∃ q r, req = Request.redirectUri q ∧
        (sdk.finish (get_auth_flow st) q).1 = Except.ok r ∧
        (handle sdk req st).2.client = some (DropboxClient.mk r.accessToken) := by
  cases req with
  | authStart => exact Or.inl rfl
  | redirectUri q =>
      cases hf : (sdk.finish (get_auth_flow st) q).1 with
      | error e => exact Or.inl (by simp [handle, redirect_uri, hf])
      | ok r => exact Or.inr ⟨q, r, rfl, hf, by simp [handle, redirect_uri, hf]⟩
  | authFinish q =>
      exact Or.inl (by cases hf : (sdk.finish (get_auth_flow st) q).1 <;>
        simp [handle, finish_auth, hf])
  | metadata fp =>
      exact Or.inl (by cases hc : st.client <;> simp [handle, get_metadata, hc])
  | test =>
      exact Or.inl (by cases hc : st.client <;> simp [handle, initial_corordinates, hc])

theorem runTrace_client_none (sdk : SDK) (reqs : List Request) :
    ∀ st : ServerState, st.client = none →
      noSuccessfulRedirect sdk st reqs = true →
      (runTrace sdk st reqs).client = none := by
  induction reqs with
  | nil => intro st h _; exact h
  | cons r rs ih =>
      intro st h hn
      unfold noSuccessfulRedirect at hn
      rw [Bool.and_eq_true, Bool.not_eq_true'] at hn
      unfold runTrace
      refine ih _ ?_ hn.2
      rw [handle_client_of_not_redirect sdk r st hn.1]
      exact h

theorem runTrace_client_ne_none (sdk : SDK) (reqs : List Request) :
    ∀ st : ServerState, st.client ≠ none →
      (runTrace sdk st reqs).client ≠ none := by
  induction reqs with
  | nil => intro st h; exact h
  | cons r rs ih =>
      intro st h
      unfold runTrace
      exact ih _ (handle_client_ne_none sdk r st h)

/-! ### The `/dropbox-auth-start` response and repeated calls -/

theorem serve_authStart_status (sdk : SDK) (st : ServerState) :
    (serve sdk Request.authStart st).1.status = 303 := rfl

theorem serve_authStart_location (sdk : SDK) (st : ServerState) :
    (serve sdk Request.authStart st).1.getHeader "Location" =
      some (sdk.start (get_auth_flow st)).1 := by
  have h := enable_cors_location (toResponse (handle sdk Request.authStart st).1)
  calc (serve sdk Request.authStart st).1.getHeader "Location"
      = (toResponse (handle sdk Request.authStart st).1).getHeader "Location" := h
    _ = some (sdk.start (get_auth_flow st)).1 := by
        simp [handle, dropbox_auth_start, toResponse, Response.getHeader, getHeader]

theorem serveMany_replicate_getD (sdk : SDK) (n : Nat) :
    ∀ (st : ServerState) (i : Nat), i < n →
      ∃ s, (serveMany sdk (List.replicate n Request.authStart) st).1.getD i defaultResponse =
        (serve sdk Request.authStart s).1 := by
  induction n with
  | zero => intro st i hi; omega
  | succ n ih =>
      intro st i hi
      cases i with
      | zero => exact ⟨st, by simp [List.replicate_succ, serveMany]⟩
      | succ j =>
          obtain ⟨s, hs⟩ := ih (serve sdk Request.authStart st).2 j (by omega)
          exact ⟨s, by simpa [List.replicate_succ, serveMany] using hs⟩

/-! ### The claims -/

/-- C1: in every execution in which no `/redirect_uri` call has yet completed
successfully, the process-wide `client` slot is still `None`, and any
`GET /metadata/{folder_path}` or `GET /test` served in that state yields an
error response (status 500, never the 200 of a silent success) rather than
crashing the process. -/
theorem C1_unauthenticated_before_first_redirect (sdk : SDK) (reqs : List Request)
    (fp : String) (h : noSuccessfulRedirect sdk initState reqs = true) :
    (runTrace sdk initState reqs).client = none ∧
    (serve sdk (Request.metadata fp) (runTrace sdk initState reqs)).1.status = 500 ∧
    (serve sdk (Request.metadata fp) (runTrace sdk initState reqs)).1.status ≠ 200 ∧
    (serve sdk Request.test (runTrace sdk initState reqs)).1.status = 500 ∧
    (serve sdk Request.test (runTrace sdk initState reqs)).1.status ≠ 200 := by
  have hc : (runTrace sdk initState reqs).client = none :=
    runTrace_client_none sdk reqs initState rfl h
  refine ⟨hc, ?_, ?_, ?_, ?_⟩ <;>
    simp [serve, handle, get_metadata, initial_corordinates, hc, toResponse,
      enable_cors_status]

theorem C1_unauthenticated_before_first_redirect_witness :
    noSuccessfulRedirect demoSDK initState
      [Request.authStart, Request.redirectUri ⟨"s", ""⟩, Request.authFinish ⟨"s", "c"⟩] = true ∧
    (runTrace demoSDK initState
      [Request.authStart, Request.redirectUri ⟨"s", ""⟩, Request.authFinish ⟨"s", "c"⟩]).client = none ∧
    (serve demoSDK (Request.metadata "docs")
      (runTrace demoSDK initState
        [Request.authStart, Request.redirectUri ⟨"s", ""⟩, Request.authFinish ⟨"s", "c"⟩])).1.status = 500 ∧
    (serve demoSDK Request.test
      (runTrace demoSDK initState
        [Request.authStart, Request.redirectUri ⟨"s", ""⟩, Request.authFinish ⟨"s", "c"⟩])).1.status = 500 := by
  have h := C1_unauthenticated_before_first_redirect demoSDK
    [Request.authStart, Request.redirectUri ⟨"s", ""⟩, Request.authFinish ⟨"s", "c"⟩]
    "docs" (by decide)
  exact ⟨by decide, h.1, h.2.1, h.2.2.2.1⟩

/-- C2: a `GET /redirect_uri` whose token exchange succeeds with access token
`r.accessToken` stores `DropboxClient(r.accessToken)` in the process-wide slot
and returns that client's account-info object as the 200 response body; a
subsequent `GET /test` returns the same account-info value. -/
theorem C2_redirect_success_stores_client (sdk : SDK) (q : Query) (st : ServerState)
    (r : OAuthResult) (hf : (sdk.finish (get_auth_flow st) q).1 = Except.ok r) :
    (serve sdk (Request.redirectUri q) st).2.client = some (DropboxClient.mk r.accessToken) ∧
    (serve sdk (Request.redirectUri q) st).1.status = 200 ∧
    (serve sdk (Request.redirectUri q) st).1.body = Body.account (sdk.accountInfo r.accessToken) ∧
    (serve sdk Request.test (serve sdk (Request.redirectUri q) st).2).1.status = 200 ∧
    (serve sdk Request.test (serve sdk (Request.redirectUri q) st).2).1.body =
      Body.account (sdk.accountInfo r.accessToken) := by
  have h2 : (handle sdk (Request.redirectUri q) st).2.client =
      some (DropboxClient.mk r.accessToken) := by
    simp [handle, redirect_uri, hf]
  refine ⟨h2, ?_, ?_, ?_, ?_⟩ <;>
    simp [serve, handle, redirect_uri, initial_corordinates, hf, h2, toResponse,
      enable_cors_status, enable_cors_body, DropboxClient.account_info]

theorem C2_redirect_success_stores_client_witness :
    (demoSDK.finish (get_auth_flow initState) ⟨"s", "c"⟩).1 =
      Except.ok (OAuthResult.mk "AT" "user-c" "s") ∧
    (serve demoSDK (Request.redirectUri ⟨"s", "c"⟩) initState).2.client =
      some (DropboxClient.mk "AT") ∧
    (serve demoSDK (Request.redirectUri ⟨"s", "c"⟩) initState).1.body =
      Body.account (demoSDK.accountInfo "AT") ∧
    (serve demoSDK Request.test
      (serve demoSDK (Request.redirectUri ⟨"s", "c"⟩) initState).2).1.body =
      Body.account (demoSDK.accountInfo "AT") := by
  have h := C2_redirect_success_stores_client demoSDK ⟨"s", "c"⟩ initState
    (OAuthResult.mk "AT" "user-c" "s") (by decide)
  exact ⟨by decide, h.1, h.2.2.1, h.2.2.2.2⟩

/-- C3: a `GET /redirect_uri` whose token exchange fails surfaces as an
unhandled 500 server error, and the process-wide `client` slot is left
exactly as it was before the call. -/
theorem C3_redirect_failure_leaves_client (sdk : SDK) (q : Query) (st : ServerState)
    (e : ExchangeError) (hf : (sdk.finish (get_auth_flow st) q).1 = Except.error e) :
    (serve sdk (Request.redirectUri q) st).1.status = 500 ∧
    (serve sdk (Request.redirectUri q) st).1.status ≠ 200 ∧
    (serve sdk (Request.redirectUri q) st).2.client = st.client := by
  refine ⟨?_, ?_, ?_⟩ <;>
    simp [serve, handle, redirect_uri, hf, toResponse, enable_cors_status]

theorem C3_redirect_failure_leaves_client_witness :
    (demoSDK.finish (get_auth_flow initState) ⟨"s", ""⟩).1 =
      Except.error (ExchangeError.mk "bad request") ∧
    (serve demoSDK (Request.redirectUri ⟨"s", ""⟩) initState).1.status = 500 ∧
    (serve demoSDK (Request.redirectUri ⟨"s", ""⟩) initState).2.client = none := by
  have h := C3_redirect_failure_leaves_client demoSDK ⟨"s", ""⟩ initState
    (ExchangeError.mk "bad request") (by decide)
  exact ⟨by decide, h.1, h.2.2.trans rfl⟩

/-- C4: `/redirect_uri` is the only writer of the `client` slot: serving
`/dropbox-auth-start`, `/dropbox-auth-finish`, `/metadata/{folder_path}` or
`/test` leaves the slot exactly as it was before the call. -/
theorem C4_only_redirect_uri_writes_client (sdk : SDK) (q : Query) (fp : String)
    (st : ServerState) :
    (serve sdk Request.authStart st).2.client = st.client ∧
    (serve sdk (Request.authFinish q) st).2.client = st.client ∧
    (serve sdk (Request.metadata fp) st).2.client = st.client ∧
    (serve sdk Request.test st).2.client = st.client := by
  refine ⟨?_, ?_, ?_, ?_⟩ <;> exact handle_client_of_not_redirect sdk _ st rfl

/-- C5: every response of every route, error responses included, carries the
three CORS headers with their literal values. -/
theorem C5_cors_headers_on_every_response (sdk : SDK) (req : Request) (st : ServerState) :
    (serve sdk req st).1.getHeader "Access-Control-Allow-Origin" = some "*" ∧
    (serve sdk req st).1.getHeader "Access-Control-Allow-Methods" =
      some "PUT, GET, POST, DELETE, OPTIONS" ∧
    (serve sdk req st).1.getHeader "Access-Control-Allow-Headers" =
      some "Origin, Accept, Content-Type, X-Requested-With, X-CSRF-Token" :=
  ⟨enable_cors_origin (toResponse (handle sdk req st).1),
   enable_cors_methods (toResponse (handle sdk req st).1),
   enable_cors_allowed (toResponse (handle sdk req st).1)⟩

/-- C6: with the client set, `GET /metadata/{s}` invokes the client's metadata
operation with exactly the path `"/" ++ s`: the leading slash is prepended
once and the segment is otherwise unmodified (so segment `foo/bar` is
forwarded as `/foo/bar`). -/
theorem C6_metadata_prepends_single_slash (sdk : SDK) (st : ServerState)
    (c : DropboxClient) (fp : String) (hc : st.client = some c) :
    (serve sdk (Request.metadata fp) st).1.status = 200 ∧
    (serve sdk (Request.metadata fp) st).1.body =
      Body.raw (sdk.metadata c.accessToken ("/" ++ fp)) := by
  refine ⟨?_, ?_⟩ <;>
    simp [serve, handle, get_metadata, hc, toResponse, enable_cors_status,
      enable_cors_body, DropboxClient.get_metadata_at]

theorem C6_metadata_prepends_single_slash_witness :
    (ServerState.mk [] (some (DropboxClient.mk "AT"))).client = some (DropboxClient.mk "AT") ∧
    (serve demoSDK (Request.metadata "foo/bar")
      (ServerState.mk [] (some (DropboxClient.mk "AT")))).1.body =
      Body.raw (demoSDK.metadata "AT" "/foo/bar") := by
  have h := C6_metadata_prepends_single_slash demoSDK
    (ServerState.mk [] (some (DropboxClient.mk "AT"))) (DropboxClient.mk "AT") "foo/bar" rfl
  exact ⟨rfl, h.2⟩

/-- C7: `GET /dropbox-auth-finish` performs the same token exchange as
`/redirect_uri` (the session is updated exactly as the exchange leaves it,
the same way `/redirect_uri` would), but the access token, user id and url
state of a successful exchange are discarded: the response body is empty with
status 200 and the process-wide `client` slot is unchanged. -/
theorem C7_auth_finish_discards_result (sdk : SDK) (q : Query) (st : ServerState)
    (r : OAuthResult) (hf : (sdk.finish (get_auth_flow st) q).1 = Except.ok r) :
    (serve sdk (Request.authFinish q) st).2.client = st.client ∧
    (serve sdk (Request.authFinish q) st).1.status = 200 ∧
    (serve sdk (Request.authFinish q) st).1.body = Body.empty ∧
    (serve sdk (Request.authFinish q) st).2.session = (sdk.finish (get_auth_flow st) q).2 ∧
    (serve sdk (Request.authFinish q) st).2.session =
      (serve sdk (Request.redirectUri q) st).2.session := by
  refine ⟨?_, ?_, ?_, ?_, ?_⟩ <;>
    simp [serve, handle, finish_auth, redirect_uri, hf, toResponse,
      enable_cors_status, enable_cors_body]

theorem C7_auth_finish_discards_result_witness :
    (demoSDK.finish (get_auth_flow initState) ⟨"s", "c"⟩).1 =
      Except.ok (OAuthResult.mk "AT" "user-c" "s") ∧
    (serve demoSDK (Request.authFinish ⟨"s", "c"⟩) initState).1.body = Body.empty ∧
    (serve demoSDK (Request.authFinish ⟨"s", "c"⟩) initState).2.client = none := by
  have h := C7_auth_finish_discards_result demoSDK ⟨"s", "c"⟩ initState
    (OAuthResult.mk "AT" "user-c" "s") (by decide)
  exact ⟨by decide, h.2.2.1, h.1.trans rfl⟩

/-- C8: every `GET /dropbox-auth-start` call responds with a redirect status
(303, a 3xx) whose `Location` header is exactly the authorization URL the
freshly built flow's `start()` returned; across any number `n` of repeated
calls, every one of the `n` responses is such a redirect with a non-empty
`Location`, provided `start()` never returns the empty URL. -/
theorem C8_auth_start_always_redirects (sdk : SDK) (st : ServerState) (n i : Nat)
    (hne : ∀ f : DropboxOAuth2Flow, (sdk.start f).1 ≠ "") (hi : i < n) :
    (serve sdk Request.authStart st).1.status = 303 ∧
    300 ≤ (serve sdk Request.authStart st).1.status ∧
    (serve sdk Request.authStart st).1.status < 400 ∧
    (serve sdk Request.authStart st).1.getHeader "Location" =
      some (sdk.start (get_auth_flow st)).1 ∧
    ((serveMany sdk (List.replicate n Request.authStart) st).1.getD i
      defaultResponse).status = 303 ∧
    ((serveMany sdk (List.replicate n Request.authStart) st).1.getD i
      defaultResponse).getHeader "Location" ≠ none ∧
    ((serveMany sdk (List.replicate n Request.authStart) st).1.getD i
      defaultResponse).getHeader "Location" ≠ some "" := by
  obtain ⟨s, hs⟩ := serveMany_replicate_getD sdk n st i hi
  refine ⟨serve_authStart_status sdk st, ?_, ?_, serve_authStart_location sdk st, ?_, ?_, ?_⟩
  · rw [serve_authStart_status]; omega
  · rw [serve_authStart_status]; omega
  · rw [hs, serve_authStart_status]
  · rw [hs, serve_authStart_location]; simp
  · rw [hs, serve_authStart_location]
    intro hcontra
    exact hne (get_auth_flow s) (Option.some.inj hcontra)

theorem C8_auth_start_always_redirects_witness :
    1 < 3 ∧
    ((serveMany demoSDK (List.replicate 3 Request.authStart) initState).1.getD 1
      defaultResponse).status = 303 ∧
    (serve demoSDK Request.authStart initState).1.getHeader "Location" =
      some (demoSDK.start (get_auth_flow initState)).1 := by
  have h := C8_auth_start_always_redirects demoSDK initState 3 1
    (fun f => by
      show ("https://www.dropbox.com/oauth2/authorize" : String) ≠ ""
      decide) (by decide)
  exact ⟨by decide, h.2.2.2.2.1, h.2.2.2.1⟩

/-- C9: once the `client` slot holds a client, no sequence of further requests
ever resets it to `None`; a single step either leaves the slot unchanged or
is a successful `/redirect_uri` overwriting it with the newly constructed
client — it is never cleared. -/
theorem C9_client_never_cleared (sdk : SDK) (st : ServerState) (c : DropboxClient)
    (reqs : List Request) (req : Request) (hc : st.client = some c) :
    (runTrace sdk st reqs).client ≠ none ∧
    ((handle sdk req st).2.client = st.client ∨
      ∃ q r, req = Request.redirectUri q ∧
        (sdk.finish (get_auth_flow st) q).1 = Except.ok r ∧
        (handle sdk req st).2.client = some (DropboxClient.mk r.accessToken)) :=
  ⟨runTrace_client_ne_none sdk reqs st (by simp [hc]),
   handle_client_step sdk req st⟩

theorem C9_client_never_cleared_witness :
    (ServerState.mk [] (some (DropboxClient.mk "AT"))).client = some (DropboxClient.mk "AT") ∧
    (runTrace demoSDK (ServerState.mk [] (some (DropboxClient.mk "AT")))
      [Request.test, Request.redirectUri ⟨"s", ""⟩, Request.metadata "x",
        Request.authFinish ⟨"s", "c"⟩, Request.authStart]).client ≠ none := by
  have h := C9_client_never_cleared demoSDK
    (ServerState.mk [] (some (DropboxClient.mk "AT"))) (DropboxClient.mk "AT")
    [Request.test, Request.redirectUri ⟨"s", ""⟩, Request.metadata "x",
      Request.authFinish ⟨"s", "c"⟩, Request.authStart] Request.test rfl
  exact ⟨rfl, h.1⟩

/-- C10: the state stored by a successful `/redirect_uri` depends only on the
access-token component of the exchange result: two successful exchanges with
the same access token but arbitrary (possibly different) `user_id` and
`url_state` store equal clients, and `/metadata` and `/test` served on the
two resulting states produce identical responses. -/
theorem C10_only_access_token_matters (sdk : SDK) (q1 q2 : Query)
    (st1 st2 : ServerState) (r1 r2 : OAuthResult) (fp : String)
    (h1 : (sdk.finish (get_auth_flow st1) q1).1 = Except.ok r1)
    (h2 : (sdk.finish (get_auth_flow st2) q2).1 = Except.ok r2)
    (ht : r1.accessToken = r2.accessToken) :
    (serve sdk (Request.redirectUri q1) st1).2.client =
      (serve sdk (Request.redirectUri q2) st2).2.client ∧
    (serve sdk (Request.metadata fp) (serve sdk (Request.redirectUri q1) st1).2).1 =
      (serve sdk (Request.metadata fp) (serve sdk (Request.redirectUri q2) st2).2).1 ∧
    (serve sdk Request.test (serve sdk (Request.redirectUri q1) st1).2).1 =
      (serve sdk Request.test (serve sdk (Request.redirectUri q2) st2).2).1 := by
  have hc1 : (redirect_uri sdk q1 st1).2.client =
      some (DropboxClient.mk r1.accessToken) := by
    simp [redirect_uri, h1]
  have hc2 : (redirect_uri sdk q2 st2).2.client =
      some (DropboxClient.mk r2.accessToken) := by
    simp [redirect_uri, h2]
  refine ⟨?_, ?_, ?_⟩ <;>
    simp [serve, handle, get_metadata, initial_corordinates, hc1, hc2, ht]

theorem C10_only_access_token_matters_witness :
    (demoSDK.finish (get_auth_flow initState) ⟨"s1", "c1"⟩).1 =
      Except.ok (OAuthResult.mk "AT" "user-c1" "s1") ∧
    (demoSDK.finish (get_auth_flow initState) ⟨"s2", "c2"⟩).1 =
      Except.ok (OAuthResult.mk "AT" "user-c2" "s2") ∧
    OAuthResult.mk "AT" "user-c1" "s1" ≠ OAuthResult.mk "AT" "user-c2" "s2" ∧
    (serve demoSDK Request.test
      (serve demoSDK (Request.redirectUri ⟨"s1", "c1"⟩) initState).2).1 =
    (serve demoSDK Request.test
      (serve demoSDK (Request.redirectUri ⟨"s2", "c2"⟩) initState).2).1 := by
  have h := C10_only_access_token_matters demoSDK ⟨"s1", "c1"⟩ ⟨"s2", "c2"⟩
    initState initState (OAuthResult.mk "AT" "user-c1" "s1")
    (OAuthResult.mk "AT" "user-c2" "s2") "x" (by decide) (by decide) rfl
  exact ⟨by decide, by decide, by decide, h.2.2⟩

end DropboxViz
